import Mathlib

set_option maxHeartbeats 1000000

/-! Formal model of the demand-forecasting core of `app.py` (weather
aggregation, feature building, the sequential prediction loop, demand
classification and the weather narrative). Numeric cells are modelled as
rationals, pandas NaN cells as `Option` values, dates as epoch-day
integers, and the narrative recommendation strings as symbolic sentence
tags (only their identity is ever inspected). -/

/-- `calc_pct_vs_avg` (app.py 45-49): percentage difference from the mean,
returning 0 when the mean is 0. -/
def calc_pct_vs_avg (value mean : ℚ) : ℚ :=
  if mean = 0 then 0 else ((value - mean) / mean) * 100

/-- Weekday index of an epoch-day number, Monday = 0 (pandas `.dt.weekday`);
epoch day 0 (1970-01-01) was a Thursday, index 3. -/
def weekdayOf (z : ℤ) : ℕ := ((z + 3) % 7).toNat

/-- Month (1-12) of an epoch-day number (pandas `.dt.month`), by the
standard civil-from-days conversion. -/
def monthOf (z : ℤ) : ℕ :=
  let z2 := z + 719468
  let era := (if 0 ≤ z2 then z2 else z2 - 146096) / 146097
  let doe := z2 - era * 146097
  let yoe := (doe - doe / 1460 + doe / 36524 - doe / 146096) / 365
  let doy := doe - (365 * yoe + yoe / 4 - yoe / 100)
  let mp := (5 * doy + 2) / 153
  (if mp < 10 then mp + 3 else mp - 9).toNat

/-- One row of the population-weighted national weather series
(a row of the `weather_avg` dataframes of app.py 634-642 / 713-719). -/
structure WeatherDay where
  day : ℤ
  Temp_Max : ℚ
  Temp_Min : ℚ
  Precipitation : ℚ
deriving DecidableEq

instance : Inhabited WeatherDay := ⟨⟨0, 0, 0, 0⟩⟩

/-- One per-location raw observation row of the `weather_data` list built in
`fetch_weather_forecast` / `fetch_historical_weather` (app.py 591-599 /
668-676): city index, date, the three weather fields and the city's fixed
population weight. -/
structure WeatherObservation where
  city : ℕ
  day : ℤ
  Temp_Max : ℚ
  Temp_Min : ℚ
  Precipitation : ℚ
  pop_weight : ℚ
deriving DecidableEq

instance : Inhabited WeatherObservation := ⟨⟨0, 0, 0, 0, 0, 0⟩⟩

/-- Population counts of the ten cities of `SWISS_CITIES` (app.py 30-41). -/
def SWISS_CITIES_pops : List ℕ :=
  [436551, 209061, 177571, 144873, 137995, 120376, 86234, 78863, 63629, 56896]

/-- `total_pop` (app.py 569/651). -/
def total_pop : ℕ := SWISS_CITIES_pops.sum

/-- `city_weights` (app.py 570/652): each city's population share of the
full location set. -/
def city_weight (i : ℕ) : ℚ := (SWISS_CITIES_pops.getD i 0 : ℚ) / (total_pop : ℚ)

/-- The `groupby('Day').apply(...)` aggregation of app.py 634-642 and
713-719: one output row per distinct date (sorted ascending, as pandas
groupby sorts its keys), each weather field the sum of `value * pop_weight`
over the observations sharing that date. -/
def weather_avg (obs : List WeatherObservation) : List WeatherDay :=
  let dates := List.insertionSort (fun a b => a ≤ b) (obs.map (·.day)).dedup
  dates.map (fun d =>
    let g := obs.filter (fun o => decide (o.day = d))
    { day := d
      Temp_Max := (g.map (fun o => o.Temp_Max * o.pop_weight)).sum
      Temp_Min := (g.map (fun o => o.Temp_Min * o.pop_weight)).sum
      Precipitation := (g.map (fun o => o.Precipitation * o.pop_weight)).sum })

/-- `fetch_weather_forecast` (app.py 644-721), abstracted over the network:
given the raw per-location observation list it accumulated, return `none`
when the list is empty (app.py 681-682) and the grouped population-weighted
average otherwise. -/
def fetch_weather_forecast (weather_data : List WeatherObservation) :
    Option (List WeatherDay) :=
  if weather_data.isEmpty then none else some (weather_avg weather_data)

/-- `fetch_historical_weather` (app.py 566-642), abstracted over the network
exactly like `fetch_weather_forecast`. -/
def fetch_historical_weather (weather_data : List WeatherObservation) :
    Option (List WeatherDay) :=
  if weather_data.isEmpty then none else some (weather_avg weather_data)

/-- One row of the `full_df` feature table produced by
`prepare_forecast_features` (app.py 755-817). The cyclical sin/cos columns
are functions of `dayofweek` / `month_num` and are modelled as derived
functions (`FeatureRow.dayofweek_sin` etc.) below. -/
structure FeatureRow where
  day : ℤ
  Temp_Max : ℚ
  Temp_Min : ℚ
  Precipitation : ℚ
  estimated_daily_searches : Option ℚ
  dayofweek : ℕ
  month_num : ℕ
  is_weekend : ℕ
  is_holiday : ℕ
  temp_range : ℚ
  temp_comfort : ℚ
  precip_binary : ℕ
  precip_heavy : ℕ
  Temp_Max_squared : ℚ
  Temp_Max_weekend : ℚ
  Precipitation_weekend : ℚ
  temp_comfort_weekend : ℚ
  Temp_Max_lag1 : Option ℚ
  Temp_Min_lag1 : Option ℚ
  Precipitation_lag1 : Option ℚ
  Temp_Max_lag7 : Option ℚ
  Temp_Min_lag7 : Option ℚ
  Precipitation_lag7 : Option ℚ
  estimated_daily_searches_lag1 : ℚ
  estimated_daily_searches_lag7 : ℚ
  Temp_Max_7d : ℚ
  Precipitation_7d : ℚ
deriving DecidableEq

instance : Inhabited FeatureRow :=
  ⟨⟨0, 0, 0, 0, none, 0, 0, 0, 0, 0, 0, 0, 0, 0, 0, 0, 0,
    none, none, none, none, none, none, 0, 0, 0, 0⟩⟩

/-- `df['dayofweek_sin']` (app.py 732). -/
noncomputable def FeatureRow.dayofweek_sin (r : FeatureRow) : ℝ :=
  Real.sin (2 * Real.pi * r.dayofweek / 7)

/-- `df['dayofweek_cos']` (app.py 733). -/
noncomputable def FeatureRow.dayofweek_cos (r : FeatureRow) : ℝ :=
  Real.cos (2 * Real.pi * r.dayofweek / 7)

/-- `df['month_sin']` (app.py 734). -/
noncomputable def FeatureRow.month_sin (r : FeatureRow) : ℝ :=
  Real.sin (2 * Real.pi * r.month_num / 12)

/-- `df['month_cos']` (app.py 735). -/
noncomputable def FeatureRow.month_cos (r : FeatureRow) : ℝ :=
  Real.cos (2 * Real.pi * r.month_num / 12)

/-- The `.shift(k)` lag columns of app.py 791-797: at row `i` the value of
`f` at row `i - k`, NaN (`none`) for the first `k` rows. -/
def shiftLag (f : WeatherDay → ℚ) (l : List WeatherDay) (k i : ℕ) : Option ℚ :=
  if i < k then none else (l.get? (i - k)).map f

/-- The `.rolling(window=7, min_periods=1).mean()` columns of app.py
810-811: the mean of `f` over the window of rows `max 0 (i-6) .. i`. -/
def rolling7 (f : WeatherDay → ℚ) (l : List WeatherDay) (i : ℕ) : ℚ :=
  let lo := i + 1 - 7
  let w := (l.drop lo).take (i + 1 - lo)
  (w.map f).sum / (w.length : ℚ)

/-- Row `i` of the feature table built over the sorted weather list `l`:
the columnar computations of `create_temporal_features` (app.py 723-737),
`create_weather_features` (app.py 739-753) and the lag / seed / rolling
columns of `prepare_forecast_features` (app.py 790-811), evaluated at one
row. `seed1`/`seed7` are `last_search_info['last_search_value']` and
`['last_7days_ago_value']` (app.py 802-803), set uniformly on all rows. -/
def buildRow (l : List WeatherDay) (seed1 seed7 : ℚ) (i : ℕ) : FeatureRow :=
  let w := l.getD i default
  let dow := weekdayOf w.day
  let wkend : ℕ := if 5 ≤ dow then 1 else 0
  { day := w.day
    Temp_Max := w.Temp_Max
    Temp_Min := w.Temp_Min
    Precipitation := w.Precipitation
    estimated_daily_searches := none
    dayofweek := dow
    month_num := monthOf w.day
    is_weekend := wkend
    is_holiday := 0
    temp_range := w.Temp_Max - w.Temp_Min
    temp_comfort := (w.Temp_Max + w.Temp_Min) / 2
    precip_binary := if 0 < w.Precipitation then 1 else 0
    precip_heavy := if 10 < w.Precipitation then 1 else 0
    Temp_Max_squared := w.Temp_Max ^ 2
    Temp_Max_weekend := w.Temp_Max * (wkend : ℚ)
    Precipitation_weekend := w.Precipitation * (wkend : ℚ)
    temp_comfort_weekend := (w.Temp_Max + w.Temp_Min) / 2 * (wkend : ℚ)
    Temp_Max_lag1 := shiftLag (·.Temp_Max) l 1 i
    Temp_Min_lag1 := shiftLag (·.Temp_Min) l 1 i
    Precipitation_lag1 := shiftLag (·.Precipitation) l 1 i
    Temp_Max_lag7 := shiftLag (·.Temp_Max) l 7 i
    Temp_Min_lag7 := shiftLag (·.Temp_Min) l 7 i
    Precipitation_lag7 := shiftLag (·.Precipitation) l 7 i
    estimated_daily_searches_lag1 := seed1
    estimated_daily_searches_lag7 := seed7
    Temp_Max_7d := rolling7 (·.Temp_Max) l i
    Precipitation_7d := rolling7 (·.Precipitation) l i }

/-- `full_df.sort_values('Day')` (app.py 782). -/
def sortByDay (l : List WeatherDay) : List WeatherDay :=
  List.insertionSort (fun a b => a.day ≤ b.day) l

/-- The full `full_df` table of `prepare_forecast_features` (app.py
776-811): concatenate historical and forecast weather, sort by date, then
compute every feature column. -/
def full_feature_table (hist wf : List WeatherDay) (seed1 seed7 : ℚ) :
    List FeatureRow :=
  let base := sortByDay (hist ++ wf)
  (List.range base.length).map (buildRow base seed1 seed7)

/-- `prepare_forecast_features` (app.py 755-817). Returns
`(forecast_features, full_df)`; `none` models the `(None, None)` hard
failure of app.py 772-774. When historical weather is absent it substitutes
the first forecast day repeated 14 times (app.py 766-771). -/
def prepare_forecast_features (weather_forecast : List WeatherDay)
    (historical_weather : Option (List WeatherDay)) (seed1 seed7 : ℚ) :
    Option (List FeatureRow × List FeatureRow) :=
  match historical_weather with
  | some h =>
      let full := full_feature_table h weather_forecast seed1 seed7
      some (full.drop h.length, full)
  | none =>
      if 0 < weather_forecast.length then
        let h := List.replicate 14 (weather_forecast.headD default)
        let full := full_feature_table h weather_forecast seed1 seed7
        some (full.drop h.length, full)
      else none

/-- The composition of `main`'s data-path around feature preparation
(app.py 1106-1118): abort (`none`) when the forecast fetch returns nothing,
otherwise prepare features from the forecast plus the (possibly absent)
historical weather. -/
def run_forecast_pipeline (forecastObs histObs : List WeatherObservation)
    (seed1 seed7 : ℚ) : Option (List FeatureRow × List FeatureRow) :=
  match fetch_weather_forecast forecastObs with
  | none => none
  | some wf => prepare_forecast_features wf (fetch_historical_weather histObs) seed1 seed7

/-- In-place single-cell update of the feature table: the effect of one
`full_df.loc[idx, col] = v` assignment (app.py 862-871) at an in-range
index; out of range it is a no-op. -/
def updateAt : List FeatureRow → ℕ → (FeatureRow → FeatureRow) → List FeatureRow
  | [], _, _ => []
  | r :: rs, 0, f => f r :: rs
  | r :: rs, n + 1, f => r :: updateAt rs n f

/-- One iteration of the prediction loop of `make_predictions` (app.py
840-871): read row `idx`, call the injected point-predictor on it, store
the prediction as that row's demand value, write it into `demand_lag1` of
row `idx+1` and `demand_lag7` of row `idx+7` when those rows are within
the table. The predictor is opaque (`model.predict` composed with the
feature-vector extraction of app.py 849-855). -/
def predStep (model : FeatureRow → ℚ) (t : List FeatureRow) (idx : ℕ) :
    ℚ × List FeatureRow :=
  let row := t.getD idx default
  let pred := model row
  let t1 := updateAt t idx (fun r => { r with estimated_daily_searches := some pred })
  let t2 :=
    if idx + 1 < t.length then
      updateAt t1 (idx + 1) (fun r => { r with estimated_daily_searches_lag1 := pred })
    else t1
  let t3 :=
    if idx + 7 < t.length then
      updateAt t2 (idx + 7) (fun r => { r with estimated_daily_searches_lag7 := pred })
    else t2
  (pred, t3)

/-- The loop of `make_predictions` run for `n` steps starting at row
`idx`, accumulating the prediction list and threading the mutated table. -/
def runSteps (model : FeatureRow → ℚ) (t : List FeatureRow) (idx : ℕ) :
    ℕ → List ℚ × List FeatureRow
  | 0 => ([], t)
  | n + 1 =>
    let s := predStep model t idx
    let rest := runSteps model s.2 (idx + 1) n
    (s.1 :: rest.1, rest.2)

/-- `make_predictions` (app.py 819-876): iterate the prediction step over
the `numForecast` forecast rows, starting at index `historical_len`;
returns the prediction list and the final (mutated) `full_df`. -/
def make_predictions (model : FeatureRow → ℚ) (numForecast historical_len : ℕ)
    (full_df : List FeatureRow) : List ℚ × List FeatureRow :=
  runSteps model full_df historical_len numForecast

/-- The demand tiers of `categorize_demand`. -/
inductive DemandLevel
  | CRITICAL
  | HIGH
  | NORMAL
  | LOW
deriving DecidableEq

/-- Symbolic tag standing for the fixed base-recommendation paragraph of
one tier (the literal strings of app.py 888-898 etc. — only their identity
is ever inspected, so the text is abstracted to a tag). -/
inductive RecTag
  | critical
  | high
  | low
  | normal
deriving DecidableEq

/-- The percentile thresholds of `historical_stats`. -/
structure HistoricalStats where
  p25 : ℚ
  p75 : ℚ
  p90 : ℚ
deriving DecidableEq

/-- The dictionary returned by `categorize_demand`. -/
structure DemandCategory where
  level : DemandLevel
  priority : String
  rec_platform_base : RecTag
  rec_restaurant_base : RecTag
  color : String
  icon : String
deriving DecidableEq

/-- `categorize_demand` (app.py 878-967): tier by percentile thresholds,
checked in the order CRITICAL (value ≥ p90), HIGH (value ≥ p75),
LOW (value ≤ p25), else NORMAL. -/
def categorize_demand (searches : ℚ) (historical_stats : HistoricalStats) :
    DemandCategory :=
  if historical_stats.p90 ≤ searches then
    ⟨.CRITICAL, "Critical", .critical, .critical, "red", "🔴"⟩
  else if historical_stats.p75 ≤ searches then
    ⟨.HIGH, "High", .high, .high, "orange", "🟠"⟩
  else if searches ≤ historical_stats.p25 then
    ⟨.LOW, "Low", .low, .low, "blue", "🔵"⟩
  else
    ⟨.NORMAL, "Normal", .normal, .normal, "green", "🟢"⟩

/-- Symbolic tags for the narrative sentences of
`build_weather_adjustment_paragraphs` (app.py 992-1068), one per literal
paragraph in the source, platform and restaurant sides kept distinct. -/
inductive Sentence
  | platformColdRainy
  | restaurantColdRainy
  | platformRainyMild
  | restaurantRainyMild
  | platformHotDry
  | restaurantHotDry
  | platformMildDry
  | restaurantMildDry
  | platformCold
  | restaurantCold
  | platformNeutral
  | restaurantNeutral
  | platformHoliday
deriving DecidableEq

/-- The scalar inputs read from `row` by
`build_weather_adjustment_paragraphs` (app.py 977-987). -/
structure NarrativeInput where
  Temp_Max : ℚ
  Temp_Min : ℚ
  Precipitation : ℚ
  is_holiday : Bool
deriving DecidableEq

/-- `build_weather_adjustment_paragraphs` (app.py 969-1073): pick one
weather sentence pair by the first matching branch, then, when
`is_holiday`, append the holiday-traffic sentence to the platform part
list (app.py 1062-1068); return `(platform_parts, restaurant_parts)`. -/
def build_weather_adjustment_paragraphs (row : NarrativeInput) :
    List Sentence × List Sentence :=
  let avg_temp := (row.Temp_Max + row.Temp_Min) / 2
  let precip := row.Precipitation
  let parts :=
    if 5 ≤ precip ∧ avg_temp ≤ 10 then
      ([Sentence.platformColdRainy], [Sentence.restaurantColdRainy])
    else if 5 ≤ precip ∧ 10 < avg_temp then
      ([Sentence.platformRainyMild], [Sentence.restaurantRainyMild])
    else if precip < 1 ∧ 25 ≤ avg_temp then
      ([Sentence.platformHotDry], [Sentence.restaurantHotDry])
    else if precip < 1 ∧ 10 < avg_temp ∧ avg_temp < 25 then
      ([Sentence.platformMildDry], [Sentence.restaurantMildDry])
    else if avg_temp ≤ 10 ∧ precip < 5 then
      ([Sentence.platformCold], [Sentence.restaurantCold])
    else
      ([Sentence.platformNeutral], [Sentence.restaurantNeutral])
  let platform_parts :=
    if row.is_holiday then parts.1 ++ [Sentence.platformHoliday] else parts.1
  (platform_parts, parts.2)

/-- Forgets the three demand fields of a row (the realized/predicted demand
value and the two demand-lag features), keeping every calendar,
weather-derived, weather-lag and weather-rolling field. Two rows agree on
all non-demand fields exactly when their images under this map are equal. -/
def eraseDemand (r : FeatureRow) : FeatureRow :=
  { r with
    estimated_daily_searches := none
    estimated_daily_searches_lag1 := 0
    estimated_daily_searches_lag7 := 0 }

/-- 14-day constant-weather historical window (days 0..13) of the
lag-propagation scenario of the spec (H = 14). -/
def c1_hist : List WeatherDay := (List.range 14).map (fun i => ⟨(i : ℤ), 10, 5, 0⟩)

/-- 7-day forecast window (days 14..20) of the lag-propagation scenario
(F = 7). -/
def c1_fore : List WeatherDay := (List.range 7).map (fun i => ⟨(14 + i : ℤ), 10, 5, 0⟩)

/-- Feature table of the lag-propagation scenario, seeded with
`last_known_demand = 100`, `demand_7_days_prior = 90`. -/
def c1_table : List FeatureRow := full_feature_table c1_hist c1_fore 100 90

/-- Concrete 2-day historical window (days 0..1) for instantiations. -/
def c2_hist : List WeatherDay := [⟨0, 8, 2, 0⟩, ⟨1, 9, 3, 1⟩]

/-- Concrete 1-day forecast window (day 2) for instantiations. -/
def c2_fore : List WeatherDay := [⟨2, 12, 4, 6⟩]

/-- Two observations on the same date from two cities, for instantiating
the weighted-sum property. -/
def c4_witness_obs : List WeatherObservation :=
  [⟨0, 0, 10, 5, 2, city_weight 0⟩, ⟨1, 0, 20, 8, 0, city_weight 1⟩]

/-- Observations for one date where city 0 (the largest) is missing: the
nine remaining cities report, each carrying its fixed population share of
the full ten-city set. -/
def c4_missing_city_obs : List WeatherObservation :=
  ((List.range 10).drop 1).map (fun i => ⟨i, 0, 10, 5, 2, city_weight i⟩)

/-- Tiny 2-row feature table (1 historical day + 1 forecast day) for
instantiating the frame property. -/
def c5_table : List FeatureRow := full_feature_table [⟨0, 10, 5, 0⟩] [⟨1, 12, 6, 3⟩] 100 90

/-- Mild dry holiday input (max 20, min 10, no rain, holiday). -/
def c6_holiday_row : NarrativeInput := ⟨20, 10, 0, true⟩

/-- The same weather with the holiday flag off. -/
def c6_plain_row : NarrativeInput := ⟨20, 10, 0, false⟩

/-- A single-observation forecast fetch result, for instantiating the
pipeline failure property. -/
def c8_forecast_obs : List WeatherObservation := [⟨0, 0, 10, 5, 2, 1⟩]

/-! ## Helper lemmas -/

theorem list_sum_map_range (g : ℕ → ℚ) (n : ℕ) :
    ((List.range n).map g).sum = ∑ k in Finset.range n, g k := by
  induction n with
  | zero => simp
  | succ n ih => simp [List.range_succ, Finset.sum_range_succ, ih]

theorem updateAt_length (l : List FeatureRow) (n : ℕ) (f : FeatureRow → FeatureRow) :
    (updateAt l n f).length = l.length := by
  induction l generalizing n with
  | nil => rfl
  | cons r rs ih =>
    cases n with
    | zero => rfl
    | succ m => simp [updateAt, ih]

theorem updateAt_getD_ne (l : List FeatureRow) (n m : ℕ) (f : FeatureRow → FeatureRow)
    (h : n ≠ m) : (updateAt l n f).getD m default = l.getD m default := by
  induction l generalizing n m with
  | nil => rfl
  | cons r rs ih =>
    cases n with
    | zero =>
      cases m with
      | zero => exact absurd rfl h
      | succ m2 => simp [updateAt]
    | succ n2 =>
      cases m with
      | zero => simp [updateAt]
      | succ m2 => simpa [updateAt] using ih n2 m2 (by omega)

theorem updateAt_getD_self (l : List FeatureRow) (n : ℕ) (f : FeatureRow → FeatureRow)
    (h : n < l.length) : (updateAt l n f).getD n default = f (l.getD n default) := by
  induction l generalizing n with
  | nil => simp at h
  | cons r rs ih =>
    cases n with
    | zero => rfl
    | succ n2 => simpa [updateAt] using ih n2 (by simpa using h)

/-! ## C10: totality of the percent-vs-average helper -/

/-- C10: `calc_pct_vs_avg` is total: it returns 0 whenever the mean is 0,
and otherwise returns `((value - mean) / mean) * 100` (equivalently, its
result multiplied back by the mean is `(value - mean) * 100`), so no call
divides by zero. -/
theorem calc_pct_vs_avg_total (value mean : ℚ) :
    (mean = 0 → calc_pct_vs_avg value mean = 0) ∧
    (mean ≠ 0 → calc_pct_vs_avg value mean = (value - mean) / mean * 100 ∧
      calc_pct_vs_avg value mean * mean = (value - mean) * 100) := by
  constructor
  · intro h
    simp [calc_pct_vs_avg, h]
  · intro h
    refine ⟨by simp [calc_pct_vs_avg, h], ?_⟩
    simp only [calc_pct_vs_avg, if_neg h]
    field_simp

/-- Witness for C10 at `value = 150`, `mean = 0` and `mean = 100`. -/
theorem calc_pct_vs_avg_total_witness :
    calc_pct_vs_avg 150 0 = 0 ∧ calc_pct_vs_avg 150 100 * 100 = (150 - 100) * 100 :=
  ⟨(calc_pct_vs_avg_total 150 0).1 rfl,
   ((calc_pct_vs_avg_total 150 100).2 (by decide)).2⟩

/-! ## C9: cyclical calendar encodings lie on the unit circle -/

/-- C9: for every feature row, the weekday and month sine/cosine encodings
satisfy `sin² + cos² = 1` exactly over the reals, independently for the
period-7 weekday encoding and the period-12 month encoding. -/
theorem cyclical_encoding_unit_circle (r : FeatureRow) :
    r.dayofweek_sin ^ 2 + r.dayofweek_cos ^ 2 = 1 ∧
    r.month_sin ^ 2 + r.month_cos ^ 2 = 1 :=
  ⟨Real.sin_sq_add_cos_sq _, Real.sin_sq_add_cos_sq _⟩

/-! ## C3: demand classifier threshold order -/

/-- C3: `categorize_demand` applies its thresholds in order — value ≥ p90
gives CRITICAL, else value ≥ p75 gives HIGH, else value ≤ p25 gives LOW,
else NORMAL; and at thresholds p25 = 1000, p75 = 2500, p90 = 3200 the six
boundary values classify as 3200 → CRITICAL, 3199 → HIGH, 2500 → HIGH,
2499 → NORMAL, 1000 → LOW, 999 → LOW. -/
theorem categorize_demand_tier_order :
    (∀ (s : ℚ) (st : HistoricalStats),
      (st.p90 ≤ s → (categorize_demand s st).level = .CRITICAL) ∧
      (s < st.p90 → st.p75 ≤ s → (categorize_demand s st).level = .HIGH) ∧
      (s < st.p90 → s < st.p75 → s ≤ st.p25 → (categorize_demand s st).level = .LOW) ∧
      (s < st.p90 → s < st.p75 → st.p25 < s → (categorize_demand s st).level = .NORMAL)) ∧
    ((categorize_demand 3200 ⟨1000, 2500, 3200⟩).level = .CRITICAL ∧
     (categorize_demand 3199 ⟨1000, 2500, 3200⟩).level = .HIGH ∧
     (categorize_demand 2500 ⟨1000, 2500, 3200⟩).level = .HIGH ∧
     (categorize_demand 2499 ⟨1000, 2500, 3200⟩).level = .NORMAL ∧
     (categorize_demand 1000 ⟨1000, 2500, 3200⟩).level = .LOW ∧
     (categorize_demand 999 ⟨1000, 2500, 3200⟩).level = .LOW) := by
  constructor
  · intro s st
    refine ⟨fun h1 => ?_, fun h1 h2 => ?_, fun h1 h2 h3 => ?_, fun h1 h2 h3 => ?_⟩
    · simp only [categorize_demand]
      rw [if_pos h1]
    · simp only [categorize_demand]
      rw [if_neg (not_le.mpr h1), if_pos h2]
    · simp only [categorize_demand]
      rw [if_neg (not_le.mpr h1), if_neg (not_le.mpr h2), if_pos h3]
    · simp only [categorize_demand]
      rw [if_neg (not_le.mpr h1), if_neg (not_le.mpr h2), if_neg (not_le.mpr h3)]
  · decide

/-- Witness for C3 instantiating the ordered-threshold implications at
`s = 2600` with thresholds `⟨1000, 2500, 3200⟩`. -/
theorem categorize_demand_tier_order_witness :
    (categorize_demand 2600 ⟨1000, 2500, 3200⟩).level = .HIGH :=
  (categorize_demand_tier_order.1 2600 ⟨1000, 2500, 3200⟩).2.1 (by decide) (by decide)

/-! ## C6: holiday sentence placement in the weather narrative -/

/-- Counterexample to C6: with mild dry weather and the holiday flag set,
the platform narrative gains exactly one extra sentence but the restaurant
narrative is byte-identical to the non-holiday one (a single sentence, no
holiday addition) — so the holiday sentence is NOT appended to both
narratives of the returned pair. -/
theorem holiday_sentence_missing_from_restaurant :
    (build_weather_adjustment_paragraphs c6_holiday_row).1.length =
      (build_weather_adjustment_paragraphs c6_plain_row).1.length + 1 ∧
    (build_weather_adjustment_paragraphs c6_holiday_row).2 =
      (build_weather_adjustment_paragraphs c6_plain_row).2 ∧
    (build_weather_adjustment_paragraphs c6_holiday_row).2.length = 1 ∧
    Sentence.platformHoliday ∉ (build_weather_adjustment_paragraphs c6_holiday_row).2 := by
  norm_num [build_weather_adjustment_paragraphs, c6_holiday_row, c6_plain_row]
  decide

/-- C6 (amended): for every input with `is_holiday` true, the
weather-narrative function appends one extra holiday sentence to the
platform narrative only, regardless of which of the six weather branches
matched; the restaurant narrative is exactly the non-holiday one. -/
theorem holiday_appends_platform_sentence_only (row : NarrativeInput)
    (h : row.is_holiday = true) :
    build_weather_adjustment_paragraphs row =
      ((build_weather_adjustment_paragraphs { row with is_holiday := false }).1
          ++ [Sentence.platformHoliday],
        (build_weather_adjustment_paragraphs { row with is_holiday := false }).2) := by
  obtain ⟨tmax, tmin, pre, hol⟩ := row
  cases h
  simp only [build_weather_adjustment_paragraphs]
  split_ifs <;> simp_all

/-- Witness for C6's amended theorem at the concrete holiday input. -/
theorem holiday_appends_platform_sentence_only_witness :
    build_weather_adjustment_paragraphs c6_holiday_row =
      ((build_weather_adjustment_paragraphs { c6_holiday_row with is_holiday := false }).1
          ++ [Sentence.platformHoliday],
        (build_weather_adjustment_paragraphs { c6_holiday_row with is_holiday := false }).2) :=
  holiday_appends_platform_sentence_only c6_holiday_row rfl

/-! ## Helper lemmas for the sequential forecaster -/

theorem eraseDemand_set_searches (r : FeatureRow) (p : Option ℚ) :
    eraseDemand { r with estimated_daily_searches := p } = eraseDemand r := rfl

theorem eraseDemand_set_lag1 (r : FeatureRow) (p : ℚ) :
    eraseDemand { r with estimated_daily_searches_lag1 := p } = eraseDemand r := rfl

theorem eraseDemand_set_lag7 (r : FeatureRow) (p : ℚ) :
    eraseDemand { r with estimated_daily_searches_lag7 := p } = eraseDemand r := rfl

theorem updateAt_getD_eraseDemand (l : List FeatureRow) (n : ℕ)
    (f : FeatureRow → FeatureRow) (hf : ∀ r, eraseDemand (f r) = eraseDemand r) (j : ℕ) :
    eraseDemand ((updateAt l n f).getD j default) = eraseDemand (l.getD j default) := by
  rcases eq_or_ne n j with rfl | hne
  · by_cases hj : n < l.length
    · rw [updateAt_getD_self l n f hj, hf]
    · rw [List.getD_eq_default, List.getD_eq_default]
      · omega
      · rw [updateAt_length]
        omega
  · rw [updateAt_getD_ne l n j f hne]

theorem predStep_snd_length (model : FeatureRow → ℚ) (t : List FeatureRow) (idx : ℕ) :
    ((predStep model t idx).2).length = t.length := by
  simp only [predStep]
  by_cases h1 : idx + 1 < t.length <;> by_cases h7 : idx + 7 < t.length
  · rw [if_pos h7, if_pos h1]
    simp only [updateAt_length]
  · rw [if_neg h7, if_pos h1]
    simp only [updateAt_length]
  · rw [if_pos h7, if_neg h1]
    simp only [updateAt_length]
  · rw [if_neg h7, if_neg h1]
    simp only [updateAt_length]

theorem predStep_fst (model : FeatureRow → ℚ) (t : List FeatureRow) (idx : ℕ) :
    (predStep model t idx).1 = model (t.getD idx default) := rfl

theorem predStep_getD_lt (model : FeatureRow → ℚ) (t : List FeatureRow) (idx j : ℕ)
    (h : j < idx) :
    ((predStep model t idx).2).getD j default = t.getD j default := by
  have hij : idx ≠ j := by omega
  have hij1 : idx + 1 ≠ j := by omega
  have hij7 : idx + 7 ≠ j := by omega
  simp only [predStep]
  by_cases h1 : idx + 1 < t.length <;> by_cases h7 : idx + 7 < t.length
  · rw [if_pos h7, if_pos h1, updateAt_getD_ne _ _ _ _ hij7,
      updateAt_getD_ne _ _ _ _ hij1, updateAt_getD_ne _ _ _ _ hij]
  · rw [if_neg h7, if_pos h1, updateAt_getD_ne _ _ _ _ hij1,
      updateAt_getD_ne _ _ _ _ hij]
  · rw [if_pos h7, if_neg h1, updateAt_getD_ne _ _ _ _ hij7,
      updateAt_getD_ne _ _ _ _ hij]
  · rw [if_neg h7, if_neg h1, updateAt_getD_ne _ _ _ _ hij]

theorem predStep_getD_searches (model : FeatureRow → ℚ) (t : List FeatureRow) (idx : ℕ)
    (h : idx < t.length) :
    (((predStep model t idx).2).getD idx default).estimated_daily_searches
      = some (model (t.getD idx default)) := by
  have hij1 : idx + 1 ≠ idx := by omega
  have hij7 : idx + 7 ≠ idx := by omega
  simp only [predStep]
  by_cases h1 : idx + 1 < t.length <;> by_cases h7 : idx + 7 < t.length
  · rw [if_pos h7, if_pos h1, updateAt_getD_ne _ _ _ _ hij7,
      updateAt_getD_ne _ _ _ _ hij1, updateAt_getD_self _ _ _ h]
  · rw [if_neg h7, if_pos h1, updateAt_getD_ne _ _ _ _ hij1,
      updateAt_getD_self _ _ _ h]
  · rw [if_pos h7, if_neg h1, updateAt_getD_ne _ _ _ _ hij7,
      updateAt_getD_self _ _ _ h]
  · rw [if_neg h7, if_neg h1, updateAt_getD_self _ _ _ h]

theorem predStep_getD_lag1 (model : FeatureRow → ℚ) (t : List FeatureRow) (idx : ℕ)
    (h : idx + 1 < t.length) :
    (((predStep model t idx).2).getD (idx + 1) default).estimated_daily_searches_lag1
      = model (t.getD idx default) := by
  have hij7 : idx + 7 ≠ idx + 1 := by omega
  simp only [predStep]
  by_cases h7 : idx + 7 < t.length
  · rw [if_pos h7, if_pos h, updateAt_getD_ne _ _ _ _ hij7,
      updateAt_getD_self _ _ _ (by rw [updateAt_length]; omega)]
  · rw [if_neg h7, if_pos h,
      updateAt_getD_self _ _ _ (by rw [updateAt_length]; omega)]

theorem predStep_getD_lag7 (model : FeatureRow → ℚ) (t : List FeatureRow) (idx : ℕ)
    (h : idx + 7 < t.length) :
    (((predStep model t idx).2).getD (idx + 7) default).estimated_daily_searches_lag7
      = model (t.getD idx default) := by
  simp only [predStep]
  by_cases h1 : idx + 1 < t.length
  · rw [if_pos h, if_pos h1,
      updateAt_getD_self _ _ _ (by rw [updateAt_length, updateAt_length]; omega)]
  · rw [if_pos h, if_neg h1,
      updateAt_getD_self _ _ _ (by rw [updateAt_length]; omega)]

theorem predStep_getD_eraseDemand (model : FeatureRow → ℚ) (t : List FeatureRow)
    (idx j : ℕ) :
    eraseDemand (((predStep model t idx).2).getD j default)
      = eraseDemand (t.getD j default) := by
  simp only [predStep]
  by_cases h1 : idx + 1 < t.length <;> by_cases h7 : idx + 7 < t.length
  · rw [if_pos h7, if_pos h1,
      updateAt_getD_eraseDemand _ _ _ (fun r => eraseDemand_set_lag7 r _) j,
      updateAt_getD_eraseDemand _ _ _ (fun r => eraseDemand_set_lag1 r _) j,
      updateAt_getD_eraseDemand _ _ _ (fun r => eraseDemand_set_searches r _) j]
  · rw [if_neg h7, if_pos h1,
      updateAt_getD_eraseDemand _ _ _ (fun r => eraseDemand_set_lag1 r _) j,
      updateAt_getD_eraseDemand _ _ _ (fun r => eraseDemand_set_searches r _) j]
  · rw [if_pos h7, if_neg h1,
      updateAt_getD_eraseDemand _ _ _ (fun r => eraseDemand_set_lag7 r _) j,
      updateAt_getD_eraseDemand _ _ _ (fun r => eraseDemand_set_searches r _) j]
  · rw [if_neg h7, if_neg h1,
      updateAt_getD_eraseDemand _ _ _ (fun r => eraseDemand_set_searches r _) j]

theorem runSteps_snd_length (model : FeatureRow → ℚ) (n : ℕ) :
    ∀ (t : List FeatureRow) (idx : ℕ), ((runSteps model t idx n).2).length = t.length := by
  induction n with
  | zero => intro t idx; rfl
  | succ n ih =>
    intro t idx
    simp only [runSteps]
    rw [ih, predStep_snd_length]

theorem runSteps_getD_lt (model : FeatureRow → ℚ) (n : ℕ) :
    ∀ (t : List FeatureRow) (idx j : ℕ), j < idx →
      ((runSteps model t idx n).2).getD j default = t.getD j default := by
  induction n with
  | zero => intro t idx j _; rfl
  | succ n ih =>
    intro t idx j hj
    simp only [runSteps]
    rw [ih _ (idx + 1) j (by omega), predStep_getD_lt _ _ _ _ hj]

theorem runSteps_getD_eraseDemand (model : FeatureRow → ℚ) (n : ℕ) :
    ∀ (t : List FeatureRow) (idx j : ℕ),
      eraseDemand (((runSteps model t idx n).2).getD j default)
        = eraseDemand (t.getD j default) := by
  induction n with
  | zero => intro t idx j; rfl
  | succ n ih =>
    intro t idx j
    simp only [runSteps]
    rw [ih _ (idx + 1) j, predStep_getD_eraseDemand]

/-! ## C1: lag propagation in the sequential forecaster -/

/-- C1: at every forecast step, after the injected predictor returns `y`
for the row at index `idx = forecast_start + i`, the forecaster stores `y`
as that row's demand value, writes `y` into `demand_lag1` of row `idx + 1`
when that row is within the table, and into `demand_lag7` of row `idx + 7`
when that row is within the table; in particular, in the H = 14, F = 7
scenario with seeds (100, 90) and the constant-50 predictor, `demand_lag1`
at forecast index 1 (row 15) equals 50 and `demand_lag7` at forecast index
0 (row 14) remains the seed 90. -/
theorem prediction_lag_propagation :
    (∀ (model : FeatureRow → ℚ) (t : List FeatureRow) (idx : ℕ), idx < t.length →
      (predStep model t idx).1 = model (t.getD idx default) ∧
      (((predStep model t idx).2).getD idx default).estimated_daily_searches
        = some (model (t.getD idx default)) ∧
      (idx + 1 < t.length →
        (((predStep model t idx).2).getD (idx + 1) default).estimated_daily_searches_lag1
          = model (t.getD idx default)) ∧
      (idx + 7 < t.length →
        (((predStep model t idx).2).getD (idx + 7) default).estimated_daily_searches_lag7
          = model (t.getD idx default))) ∧
    ((((make_predictions (fun _ => 50) 7 14 c1_table).2).getD 15
        default).estimated_daily_searches_lag1 = 50 ∧
      (((make_predictions (fun _ => 50) 7 14 c1_table).2).getD 14
        default).estimated_daily_searches_lag7 = 90) := by
  refine ⟨fun model t idx h =>
    ⟨predStep_fst model t idx, predStep_getD_searches model t idx h,
      fun h1 => predStep_getD_lag1 model t idx h1,
      fun h7 => predStep_getD_lag7 model t idx h7⟩, ?_, ?_⟩
  · decide
  · decide

/-- Witness for C1's per-step clause: one prediction step of the
constant-50 predictor at row 14 of the scenario table writes 50 into
`demand_lag1` of row 15. -/
theorem prediction_lag_propagation_witness :
    (((predStep (fun _ => 50) c1_table 14).2).getD 15
      default).estimated_daily_searches_lag1 = 50 :=
  (prediction_lag_propagation.1 (fun _ => 50) c1_table 14 (by decide)).2.2.1 (by decide)

/-! ## C5: the forecaster only writes demand fields of forecast rows -/

/-- C5: running the sequential forecaster changes only the demand value
and the demand-lag fields of rows at or after the forecast window start:
the final table has the same length, every row strictly before
`historical_len` is byte-identical, and every row of the table agrees with
its original on all calendar, weather-derived, weather-lag and
weather-rolling fields (`eraseDemand` projections are equal). -/
theorem forecaster_frame_effect :
    ∀ (model : FeatureRow → ℚ) (numForecast historical_len : ℕ) (t : List FeatureRow),
      ((make_predictions model numForecast historical_len t).2).length = t.length ∧
      (∀ j, j < historical_len →
        ((make_predictions model numForecast historical_len t).2).getD j default
          = t.getD j default) ∧
      (∀ j, eraseDemand
          (((make_predictions model numForecast historical_len t).2).getD j default)
        = eraseDemand (t.getD j default)) := by
  intro model F hl t
  exact ⟨runSteps_snd_length model F t hl,
    fun j hj => runSteps_getD_lt model F t hl j hj,
    fun j => runSteps_getD_eraseDemand model F t hl j⟩

/-- Witness for C5: on the 2-row table with one historical row, the
historical row 0 is unchanged by a full forecaster run. -/
theorem forecaster_frame_effect_witness :
    ((make_predictions (fun _ => 42) 1 1 c5_table).2).getD 0 default
      = c5_table.getD 0 default :=
  (forecaster_frame_effect (fun _ => 42) 1 1 c5_table).2.1 0 (by decide)

/-! ## C4: population-weighted aggregation -/

theorem headD_mem_of_ne_nil {α : Type} [Inhabited α] {l : List α} (h : l ≠ []) :
    l.headD default ∈ l := by
  cases l with
  | nil => exact absurd rfl h
  | cons a l2 => simp

theorem weather_avg_ne_nil {obs : List WeatherObservation} (h : obs ≠ []) :
    weather_avg obs ≠ [] := by
  simp only [weather_avg, ne_eq, List.map_eq_nil_iff]
  intro hs
  apply h
  have h1 : (obs.map (·.day)).dedup = [] := by
    have h2 := congrArg List.length hs
    rw [List.length_insertionSort] at h2
    exact List.length_eq_zero.mp h2
  exact List.map_eq_nil_iff.mp ((List.dedup_eq_nil _).mp h1)

theorem filter_map_sum_eq_range_sum (obs : List WeatherObservation) (d : ℤ)
    (f : WeatherObservation → ℚ) :
    ((obs.filter (fun o => decide (o.day = d))).map f).sum =
      ∑ j in Finset.range obs.length,
        (if (obs.getD j default).day = d then f (obs.getD j default) else 0) := by
  induction obs with
  | nil => simp
  | cons o rest ih =>
    rw [List.length_cons, Finset.sum_range_succ']
    simp only [List.getD_cons_succ, List.getD_cons_zero]
    by_cases h : o.day = d
    · rw [List.filter_cons_of_pos (by simp [h]), List.map_cons, List.sum_cons, ih, if_pos h]
      ring
    · rw [List.filter_cons_of_neg (by simp [h]), ih, if_neg h, add_zero]

/-- C4: every row of the aggregated weather output has each field equal to
`Σ value·weight` over exactly the observations reporting that row's date
(fixed per-location weights, missing locations simply excluded, no
renormalization); and while the full ten-city weight set sums to 1, the
effective weights of a date missing city 0 sum to strictly less than 1. -/
theorem weather_avg_weighted_sum :
    (∀ (obs : List WeatherObservation) (a : WeatherDay), a ∈ weather_avg obs →
      (a.Temp_Max = ∑ j in Finset.range obs.length,
          (if (obs.getD j default).day = a.day then
            (obs.getD j default).Temp_Max * (obs.getD j default).pop_weight else 0)) ∧
      (a.Temp_Min = ∑ j in Finset.range obs.length,
          (if (obs.getD j default).day = a.day then
            (obs.getD j default).Temp_Min * (obs.getD j default).pop_weight else 0)) ∧
      (a.Precipitation = ∑ j in Finset.range obs.length,
          (if (obs.getD j default).day = a.day then
            (obs.getD j default).Precipitation * (obs.getD j default).pop_weight else 0))) ∧
    (((List.range 10).map city_weight).sum = 1 ∧
      (c4_missing_city_obs.map (fun o => o.pop_weight)).sum < 1) := by
  constructor
  · intro obs a ha
    simp only [weather_avg, List.mem_map] at ha
    obtain ⟨d, hd, rfl⟩ := ha
    exact ⟨filter_map_sum_eq_range_sum obs d _,
      filter_map_sum_eq_range_sum obs d _,
      filter_map_sum_eq_range_sum obs d _⟩
  · constructor
    · norm_num [city_weight, SWISS_CITIES_pops, total_pop, List.range_succ]
    · norm_num [c4_missing_city_obs, city_weight, SWISS_CITIES_pops, total_pop,
        List.range_succ]

/-- Witness for C4 on a two-city, one-date observation list. -/
theorem weather_avg_weighted_sum_witness :
    ((weather_avg c4_witness_obs).headD default).Temp_Max
      = ∑ j in Finset.range c4_witness_obs.length,
          (if (c4_witness_obs.getD j default).day
              = ((weather_avg c4_witness_obs).headD default).day
            then (c4_witness_obs.getD j default).Temp_Max
              * (c4_witness_obs.getD j default).pop_weight
            else 0) :=
  (weather_avg_weighted_sum.1 c4_witness_obs _
    (headD_mem_of_ne_nil (weather_avg_ne_nil (by simp [c4_witness_obs])))).1

/-! ## C8: fatal exactly when forecast weather is absent -/

/-- C8: the feature-preparation path fails hard (no feature table, `none`)
exactly when the forecast-window weather is entirely absent; when forecast
weather exists but historical weather is absent, the run succeeds using a
fallback historical series consisting of the first available forecast day
repeated 14 times. -/
theorem pipeline_failure_iff_no_forecast :
    ∀ (forecastObs histObs : List WeatherObservation) (seed1 seed7 : ℚ),
      (run_forecast_pipeline forecastObs histObs seed1 seed7 = none ↔ forecastObs = []) ∧
      (forecastObs ≠ [] → histObs = [] →
        run_forecast_pipeline forecastObs histObs seed1 seed7 =
          prepare_forecast_features (weather_avg forecastObs)
            (some (List.replicate 14 ((weather_avg forecastObs).headD default)))
            seed1 seed7) := by
  intro fo ho s1 s7
  rcases fo with _ | ⟨o, fo2⟩
  · refine ⟨⟨fun _ => rfl, fun _ => rfl⟩, fun hfo _ => absurd rfl hfo⟩
  · have hne : weather_avg (o :: fo2) ≠ [] := weather_avg_ne_nil (by simp)
    have hpos : 0 < (weather_avg (o :: fo2)).length := List.length_pos.mpr hne
    constructor
    · constructor
      · intro hnone
        exfalso
        simp only [run_forecast_pipeline, fetch_weather_forecast, List.isEmpty_cons,
          Bool.false_eq_true, if_false] at hnone
        rcases hh : fetch_historical_weather ho with _ | hw
        · rw [hh] at hnone
          simp only [prepare_forecast_features, if_pos hpos] at hnone
          exact Option.some_ne_none _ hnone
        · rw [hh] at hnone
          simp only [prepare_forecast_features] at hnone
          exact Option.some_ne_none _ hnone
      · intro hcon
        exact absurd hcon (List.cons_ne_nil o fo2)
    · intro _ hho
      subst hho
      simp only [run_forecast_pipeline, fetch_weather_forecast, fetch_historical_weather,
        List.isEmpty_cons, List.isEmpty_nil, Bool.false_eq_true, if_false, if_true]
      simp only [prepare_forecast_features, if_pos hpos]

/-- Witness for C8: a one-observation forecast with no historical data
succeeds via the replicate-14 fallback, and an empty forecast aborts. -/
theorem pipeline_failure_iff_no_forecast_witness :
    run_forecast_pipeline c8_forecast_obs [] 100 90 =
      prepare_forecast_features (weather_avg c8_forecast_obs)
        (some (List.replicate 14 ((weather_avg c8_forecast_obs).headD default))) 100 90 ∧
    run_forecast_pipeline [] [] 100 90 = none :=
  ⟨(pipeline_failure_iff_no_forecast c8_forecast_obs [] 100 90).2
      (by simp [c8_forecast_obs]) rfl,
    (pipeline_failure_iff_no_forecast [] [] 100 90).1.mpr rfl⟩

/-! ## Helper lemmas for the feature table -/

theorem buildRow_day (l : List WeatherDay) (s1 s7 : ℚ) (i : ℕ) :
    (buildRow l s1 s7 i).day = (l.getD i default).day := rfl

theorem buildRow_Temp_Max (l : List WeatherDay) (s1 s7 : ℚ) (i : ℕ) :
    (buildRow l s1 s7 i).Temp_Max = (l.getD i default).Temp_Max := rfl

theorem buildRow_Precipitation (l : List WeatherDay) (s1 s7 : ℚ) (i : ℕ) :
    (buildRow l s1 s7 i).Precipitation = (l.getD i default).Precipitation := rfl

theorem buildRow_Temp_Max_7d (l : List WeatherDay) (s1 s7 : ℚ) (i : ℕ) :
    (buildRow l s1 s7 i).Temp_Max_7d = rolling7 (·.Temp_Max) l i := rfl

theorem buildRow_Precipitation_7d (l : List WeatherDay) (s1 s7 : ℚ) (i : ℕ) :
    (buildRow l s1 s7 i).Precipitation_7d = rolling7 (·.Precipitation) l i := rfl

theorem full_feature_table_length (hist wf : List WeatherDay) (s1 s7 : ℚ) :
    (full_feature_table hist wf s1 s7).length = hist.length + wf.length := by
  simp [full_feature_table, sortByDay, List.length_insertionSort]

theorem full_feature_table_getD (hist wf : List WeatherDay) (s1 s7 : ℚ) (i : ℕ)
    (hi : i < hist.length + wf.length) :
    (full_feature_table hist wf s1 s7).getD i default
      = buildRow (sortByDay (hist ++ wf)) s1 s7 i := by
  have hlen : i < ((List.range (sortByDay (hist ++ wf)).length).map
      (buildRow (sortByDay (hist ++ wf)) s1 s7)).length := by
    simpa [sortByDay, List.length_insertionSort] using hi
  simp only [full_feature_table]
  rw [List.getD_eq_getElem _ _ hlen]
  simp [List.getElem_map, List.getElem_range]

/-! ## C2: table length and date contiguity -/

/-- C2: for every historical window of length H ≥ 1 whose dates run
`d0 .. d0+H-1` immediately followed by a forecast window of length F ≥ 1
with dates `d0+H .. d0+H+F-1`, feature preparation succeeds and the full
feature table has exactly H+F rows whose dates are `d0 + i` at index `i` —
ascending with zero gaps (each row is one calendar day after the previous
one). -/
theorem feature_table_length_and_contiguity (h wf : List WeatherDay)
    (seed1 seed7 : ℚ) (d0 : ℤ) (H F : ℕ) (hH : h.length = H) (hF : wf.length = F)
    (hH1 : 1 ≤ H) (hF1 : 1 ≤ F)
    (hdays : ∀ i, i < H + F → ((h ++ wf).getD i default).day = d0 + i) :
    prepare_forecast_features wf (some h) seed1 seed7
      = some ((full_feature_table h wf seed1 seed7).drop H,
          full_feature_table h wf seed1 seed7) ∧
    (full_feature_table h wf seed1 seed7).length = H + F ∧
    (∀ i, i < H + F →
      ((full_feature_table h wf seed1 seed7).getD i default).day = d0 + i) ∧
    (∀ i, i + 1 < H + F →
      ((full_feature_table h wf seed1 seed7).getD (i + 1) default).day
        = ((full_feature_table h wf seed1 seed7).getD i default).day + 1) := by
  subst hH
  subst hF
  have hlen2 : (h ++ wf).length = h.length + wf.length := List.length_append h wf
  have hsorted : sortByDay (h ++ wf) = h ++ wf := by
    apply List.Sorted.insertionSort_eq
    refine List.pairwise_iff_getElem.mpr ?_
    intro i j hi hj hij
    have di : (h ++ wf)[i].day = d0 + i := by
      rw [← List.getD_eq_getElem (h ++ wf) default hi]
      exact hdays i (by omega)
    have dj : (h ++ wf)[j].day = d0 + j := by
      rw [← List.getD_eq_getElem (h ++ wf) default hj]
      exact hdays j (by omega)
    show (h ++ wf)[i].day ≤ (h ++ wf)[j].day
    rw [di, dj]
    omega
  have g : ∀ k, k < h.length + wf.length →
      ((full_feature_table h wf seed1 seed7).getD k default).day = d0 + k := by
    intro k hk
    rw [full_feature_table_getD h wf seed1 seed7 k hk, buildRow_day, hsorted]
    exact hdays k hk
  refine ⟨rfl, full_feature_table_length h wf seed1 seed7, fun i hi => g i hi,
    fun i hi => ?_⟩
  rw [g i (by omega), g (i + 1) (by omega)]
  push_cast
  ring

/-- Witness for C2: the 2-day + 1-day contiguous window (days 0,1,2)
yields a 3-row table. -/
theorem feature_table_length_and_contiguity_witness :
    (full_feature_table c2_hist c2_fore 100 90).length = 2 + 1 :=
  (feature_table_length_and_contiguity c2_hist c2_fore 100 90 0 2 1 rfl rfl
    (by decide) (by decide) (by decide)).2.1

/-! ## C7: rolling features are expanding/trailing means -/

theorem drop_take_eq_map_range (l : List WeatherDay) (lo n : ℕ)
    (hn : lo + n ≤ l.length) :
    (l.drop lo).take n = (List.range n).map (fun k => l.getD (lo + k) default) := by
  apply List.ext_getElem
  · simp
    omega
  · intro k hk1 hk2
    have hk : k < n := by simpa using hk2
    simp only [List.getElem_take, List.getElem_drop, List.getElem_map, List.getElem_range]
    rw [List.getD_eq_getElem _ _ (by omega)]

theorem rolling7_eq_mean (f : WeatherDay → ℚ) (l : List WeatherDay) (i : ℕ)
    (hi : i < l.length) :
    rolling7 f l i
      = (∑ j in Finset.Icc (i + 1 - 7) i, f (l.getD j default))
        / ((min (i + 1) 7 : ℕ) : ℚ) := by
  simp only [rolling7]
  rw [drop_take_eq_map_range l (i + 1 - 7) (i + 1 - (i + 1 - 7)) (by omega)]
  rw [List.map_map, list_sum_map_range, List.length_map, List.length_range]
  rw [← Nat.Ico_succ_right, Finset.sum_Ico_eq_sum_range]
  have hmin : i + 1 - (i + 1 - 7) = min (i + 1) 7 := by omega
  rw [hmin]
  rfl

/-- C7: for every row index `i` of the feature table, the rolling features
`Temp_Max_7d` and `Precipitation_7d` equal the arithmetic mean of the
corresponding raw field over rows `max 0 (i-6) .. i` — an expanding mean
for the first 6 rows and a true trailing 7-row mean from row 6 on — and
the window size `min (i+1) 7` is never zero (no row is null). -/
theorem rolling_features_expanding_mean (hist wf : List WeatherDay) (s1 s7 : ℚ)
    (i : ℕ) (hi : i < (full_feature_table hist wf s1 s7).length) :
    (((full_feature_table hist wf s1 s7).getD i default).Temp_Max_7d
      = (∑ j in Finset.Icc (i + 1 - 7) i,
          ((full_feature_table hist wf s1 s7).getD j default).Temp_Max)
        / ((min (i + 1) 7 : ℕ) : ℚ)) ∧
    (((full_feature_table hist wf s1 s7).getD i default).Precipitation_7d
      = (∑ j in Finset.Icc (i + 1 - 7) i,
          ((full_feature_table hist wf s1 s7).getD j default).Precipitation)
        / ((min (i + 1) 7 : ℕ) : ℚ)) ∧
    0 < min (i + 1) 7 := by
  rw [full_feature_table_length] at hi
  have hbl : (sortByDay (hist ++ wf)).length = hist.length + wf.length := by
    simp [sortByDay, List.length_insertionSort]
  have hib : i < (sortByDay (hist ++ wf)).length := by omega
  have hrow : ∀ j, j < hist.length + wf.length →
      (full_feature_table hist wf s1 s7).getD j default
        = buildRow (sortByDay (hist ++ wf)) s1 s7 j :=
    fun j hj => full_feature_table_getD hist wf s1 s7 j hj
  refine ⟨?_, ?_, by omega⟩
  · rw [hrow i hi, buildRow_Temp_Max_7d, rolling7_eq_mean _ _ _ hib]
    congr 1
    apply Finset.sum_congr rfl
    intro j hj
    have hji : j ≤ i := by
      simp only [Finset.mem_Icc] at hj
      omega
    rw [hrow j (by omega), buildRow_Temp_Max]
  · rw [hrow i hi, buildRow_Precipitation_7d, rolling7_eq_mean _ _ _ hib]
    congr 1
    apply Finset.sum_congr rfl
    intro j hj
    have hji : j ≤ i := by
      simp only [Finset.mem_Icc] at hj
      omega
    rw [hrow j (by omega), buildRow_Precipitation]

/-- Witness for C7 at row 2 of the 3-row table. -/
theorem rolling_features_expanding_mean_witness :
    ((full_feature_table c2_hist c2_fore 100 90).getD 2 default).Temp_Max_7d
      = (∑ j in Finset.Icc (2 + 1 - 7) 2,
          ((full_feature_table c2_hist c2_fore 100 90).getD j default).Temp_Max)
        / ((min (2 + 1) 7 : ℕ) : ℚ) :=
  (rolling_features_expanding_mean c2_hist c2_fore 100 90 2 (by decide)).1
